import Mathlib

/-!
Verification of the corsairmi PSU telemetry reader (src/corsairmi.c).

The development shallowly embeds the protocol core of the program:
the 16-bit linear-float decoder `mkv`, the report framer
`send_recv_cmd`, the register access helpers, the device allow-list
gate of `try_open_device`, and the fixed command sequence issued by
`main`.  Machine integers are modelled as `Nat`/`Int` with explicit
reductions modulo powers of two where the C code relies on
fixed-width behaviour; the `double` result of `mkv` is modelled as a
rational, which is exact here because the mantissa fits in 11 bits
and the exponent ranges over `[-16, 15]`, so every value
`v * 2^p` the C code produces is exactly representable in an IEEE
double and `pow(2.0, p)` and the multiplication incur no rounding.
-/

namespace Corsairmi

/-- Reinterpretation of a natural number as a signed 16-bit integer,
modelling the C cast `(int16_t)v16` (two's complement). -/
def toInt16 (n : Nat) : Int :=
  if n % 2 ^ 16 < 2 ^ 15 then (n % 2 ^ 16 : Int) else (n % 2 ^ 16 : Int) - 2 ^ 16

/-- Reinterpretation of a natural number as a signed 32-bit integer,
modelling a value held in a C `int` (two's complement, 32 bits). -/
def toInt32 (n : Nat) : Int :=
  if n % 2 ^ 32 < 2 ^ 31 then (n % 2 ^ 32 : Int) else (n % 2 ^ 32 : Int) - 2 ^ 32

/-- The decoder `mkv` of src/corsairmi.c lines 162-168, translated
operation by operation:
`int p = (int)(int16_t)v16 >> 11;` is the sign reinterpretation
`toInt16` followed by an arithmetic shift right by 11, i.e. floor
division by `2 ^ 11` (Lean's `/` on `Int` is Euclidean division,
which is floor division for a positive divisor);
`int v = ((int)v16 << 21) >> 21;` is a left shift in a 32-bit word
(reduced modulo `2 ^ 32` and reinterpreted as signed, matching the
wrap-around behaviour of the compiled code) followed by an
arithmetic shift right by 21;
`return (double)v * pow(2.0, p);` is the exact product `v * 2 ^ p`
in the rationals (exact for these operand ranges; see the file
header). -/
def mkv (v16 : Nat) : ℚ :=
  ((toInt32 ((v16 % 2 ^ 16) * 2 ^ 21) / 2 ^ 21 : ℤ) : ℚ) * (2 : ℚ) ^ (toInt16 v16 / 2 ^ 11 : ℤ)

/-- Sign extension of the low `w` bits of a natural number, written
as the spec describes it: extract the `w`-bit field and interpret it
in two's complement. -/
def sext (w : Nat) (x : Nat) : Int :=
  if x % 2 ^ w < 2 ^ (w - 1) then (x % 2 ^ w : Int) else (x % 2 ^ w : Int) - 2 ^ w

theorem exponent_field_eq (raw : Nat) :
    toInt16 raw / 2 ^ 11 = sext 5 (raw / 2 ^ 11) := by
  unfold toInt16 sext
  split <;> split <;> omega

theorem mantissa_field_eq (raw : Nat) :
    toInt32 ((raw % 2 ^ 16) * 2 ^ 21) / 2 ^ 21 = sext 11 (raw % 2 ^ 11) := by
  unfold toInt32 sext
  split <;> split <;> omega

/-- Typed rendering of the fatal error paths of `send_recv_cmd`
(src/corsairmi.c lines 114-136): each `exit(1)` carries the data the
corresponding `fprintf` reports. -/
inductive CmdError where
  | transportWrite (actual expected : Nat)
  | transportRead (actual expected : Nat)
  | protocolMismatch (got0 got1 b0 b1 b2 : Nat)
  deriving DecidableEq, Repr

/-- Behaviour of the HID transport for one exchange: the byte count
the `write` call reports, the byte count the `read` call reports, and
the 64-byte inbound report delivered by `read`. -/
structure Transport where
  writeCount : Nat
  readCount : Nat
  response : List Nat
  deriving DecidableEq, Repr

/-- The outbound report assembled by src/corsairmi.c lines 110-113:
`memset(buf_w, 0, 65)` then `buf_w[1] = b0; buf_w[2] = b1;
buf_w[3] = b2;`.  Index 0 keeps its zero from the memset and indices
4..64 are the remaining 61 zeroed bytes. -/
def buildOutbound (b0 b1 b2 : Nat) : List Nat :=
  0 :: b0 :: b1 :: b2 :: List.replicate 61 0

/-- The framer `send_recv_cmd` of src/corsairmi.c lines 104-143.
It writes the 65-byte outbound report and fails if the write did not
report 65 bytes; reads the 64-byte inbound report and fails if the
read did not report 64 bytes; fails if the first two response bytes
do not echo `b0` and `b1`; otherwise it copies
`min bufSize 62` payload bytes starting at response offset 2
(the C code caps `buf_size` at `sizeof(buf_r) - 2 = 62` before the
`memcpy(buf, buf_r + 2, buf_size)`). -/
def send_recv_cmd (t : Transport) (b0 b1 b2 : Nat) (bufSize : Nat) :
    Except CmdError (List Nat) :=
  if t.writeCount ≠ 65 then
    .error (.transportWrite t.writeCount 65)
  else if t.readCount ≠ 64 then
    .error (.transportRead t.readCount 64)
  else if t.response.getD 0 0 ≠ b0 ∨ t.response.getD 1 0 ≠ b1 then
    .error (.protocolMismatch (t.response.getD 0 0) (t.response.getD 1 0) b0 b1 b2)
  else
    .ok ((t.response.drop 2).take (min bufSize 62))

/-- The register read helper of src/corsairmi.c lines 145-148:
`send_recv_cmd(fd, 0x03, reg, 0x00, buf, buf_size)`. -/
def read_reg (t : Transport) (reg : Nat) (bufSize : Nat) :
    Except CmdError (List Nat) :=
  send_recv_cmd t 0x03 reg 0x00 bufSize

/-- The 16-bit register read of src/corsairmi.c lines 150-154.  The C
code passes a `uint16_t *` to `send_recv_cmd`, which `memcpy`s the
two payload bytes into the integer's storage, so the resulting value
depends on the host's byte order (the source marks this with
`FIXME: big endian host`): on a little-endian host payload byte 0 is
the low byte, on a big-endian host it is the high byte. -/
def read_reg16 (hostLittleEndian : Bool) (t : Transport) (reg : Nat) :
    Except CmdError Nat :=
  (send_recv_cmd t 0x03 reg 0x00 2).map fun pl =>
    if hostLittleEndian then pl.getD 0 0 + 2 ^ 8 * pl.getD 1 0
    else 2 ^ 8 * pl.getD 0 0 + pl.getD 1 0

/-- The product-ID allow-list of src/corsairmi.c lines 67-78. -/
def products : List Nat :=
  [0x1c0a, 0x1c0b, 0x1c0c, 0x1c0d, 0x1c04, 0x1c05, 0x1c06, 0x1c07, 0x1c08, 0x1c1e]

/-- The acceptance test of `try_open_device` (src/corsairmi.c lines
210-218): the reported vendor ID must be 0x1b1c and the reported
product ID must appear in `products`; otherwise `found` stays 0 and
the descriptor is closed and -1 returned.  `try_open_device` issues
no protocol command: it only opens the node and queries its
identifiers with `HIDIOCGRAWINFO`. -/
def device_accepted (vendor product : Nat) : Bool :=
  vendor == 0x1b1c && products.contains product

/-- One command tuple as passed to `send_recv_cmd`. -/
structure Cmd where
  op : Nat
  reg : Nat
  arg : Nat
  deriving DecidableEq, Repr

/-- The body of the rail loop of src/corsairmi.c lines 290-296: the
rail-select write `send_recv_cmd(fd, 0x02, 0x00, osel, NULL, 0)`
followed by the three rail-scoped reads issued through
`print_std_reg` (each a `read_reg16`, i.e. op 0x03, arg 0x00). -/
def railBlock (k : Nat) : List Cmd :=
  [⟨0x02, 0x00, k⟩, ⟨0x03, 0x8b, 0x00⟩, ⟨0x03, 0x8c, 0x00⟩, ⟨0x03, 0x96, 0x00⟩]

/-- The fixed sequence of commands `main` sends on a successfully
opened device (src/corsairmi.c lines 269-298): identity string
(op 0xfe, reg 0x03), vendor and product strings (reg 0x99, 0x9a),
the two 32-bit counters (reg 0xd1, 0xd2), the five environmental
scalars (reg 0x8d, 0x8e, 0x90, 0x88, 0xee), the three rail blocks
for osel = 0, 1, 2, and the final rail-select with arg 0. -/
def sessionTrace : List Cmd :=
  [⟨0xfe, 0x03, 0x00⟩, ⟨0x03, 0x99, 0x00⟩, ⟨0x03, 0x9a, 0x00⟩,
   ⟨0x03, 0xd1, 0x00⟩, ⟨0x03, 0xd2, 0x00⟩,
   ⟨0x03, 0x8d, 0x00⟩, ⟨0x03, 0x8e, 0x00⟩, ⟨0x03, 0x90, 0x00⟩,
   ⟨0x03, 0x88, 0x00⟩, ⟨0x03, 0xee, 0x00⟩] ++
  railBlock 0 ++ railBlock 1 ++ railBlock 2 ++ [⟨0x02, 0x00, 0x00⟩]

/-- The commands `main` sends to a device reporting the given
identifiers: `main` returns before sending anything when
`try_open_device` rejected the device (src/corsairmi.c lines
266-267), and otherwise runs the fixed sequence. -/
def deviceSession (vendor product : Nat) : List Cmd :=
  if device_accepted vendor product then sessionTrace else []

/-- A command is one of the rail-scoped register reads: volts 0x8b,
amps 0x8c or watts 0x96, issued with the read opcode 0x03. -/
def isRailRead (c : Cmd) : Bool :=
  c.op == 0x03 && (c.reg == 0x8b || c.reg == 0x8c || c.reg == 0x96)

/-- A command is a rail-select write: op 0x02, reg 0x00. -/
def isRailSelect (c : Cmd) : Bool :=
  c.op == 0x02 && c.reg == 0x00

/-- The argument of the most recent rail-select command in a list,
if any. -/
def lastSelect (l : List Cmd) : Option Nat :=
  ((l.filter isRailSelect).getLast?).map Cmd.arg

/-- The rail index a rail-scoped read at position `i` of
`sessionTrace` targets, per the session's loop structure: rail block
`k` occupies positions `10 + 4 * k` to `13 + 4 * k`, the select at
the block's head and the three reads behind it. -/
def railOf (i : Nat) : Nat :=
  (i - 10) / 4

/-- The effect of `memcpy(buf, buf_r + 2, buf_size)` on the caller's
buffer (src/corsairmi.c line 141): the payload replaces the first
`pl.length` bytes and every byte behind them keeps its old value. -/
def storePayload (buf pl : List Nat) : List Nat :=
  pl ++ buf.drop pl.length

/-- The three string exchanges of `main` (src/corsairmi.c lines
269-275) threaded through the reused 63-byte `name` buffer: `main`
sets `name[62] = 0` once, then reads the identity string
(op 0xfe, reg 0x03), the vendor string (register 0x99) and the
product string (register 0x9a), each requesting
`sizeof(name) - 1 = 62` payload bytes into the same buffer.  The
result is the triple of buffer states `main` prints from, or `none`
when any exchange fails (the C program exits then). -/
def mainStringBuffers (t1 t2 t3 : Transport) (init : List Nat) :
    Option (List Nat × List Nat × List Nat) :=
  let buf0 := init.set 62 0
  match send_recv_cmd t1 0xfe 0x03 0x00 62 with
  | .error _ => none
  | .ok pl1 =>
    let buf1 := storePayload buf0 pl1
    match read_reg t2 0x99 62 with
    | .error _ => none
    | .ok pl2 =>
      let buf2 := storePayload buf1 pl2
      match read_reg t3 0x9a 62 with
      | .error _ => none
      | .ok pl3 => some (buf1, buf2, storePayload buf2 pl3)

/-- C1: for every 16-bit input `raw`, `mkv raw` equals `v * 2 ^ p`
where `p` is the top 5-bit field of `raw` sign-extended (equivalently
the word reinterpreted as signed 16-bit and arithmetic-shifted right
by 11) and `v` is the low 11-bit field sign-extended; the function is
total, `mkv 0 = 0`, and the word with mantissa 1 and exponent 0,
namely `0x0001`, decodes to 1. -/
theorem mkv_decode_correct :
    (∀ raw : Nat, raw < 2 ^ 16 →
      mkv raw = (sext 11 (raw % 2 ^ 11) : ℚ) * (2 : ℚ) ^ (sext 5 (raw / 2 ^ 11))) ∧
    mkv 0 = 0 ∧ mkv 1 = 1 := by
  refine ⟨fun raw _h => ?_, by norm_num [mkv, toInt16, toInt32], by norm_num [mkv, toInt16, toInt32]⟩
  unfold mkv
  rw [mantissa_field_eq raw, exponent_field_eq raw]

theorem mkv_decode_correct_witness :
    (0x8999 : Nat) < 2 ^ 16 ∧
    mkv 0x8999 = (sext 11 (0x8999 % 2 ^ 11) : ℚ) * (2 : ℚ) ^ (sext 5 (0x8999 / 2 ^ 11)) :=
  ⟨by norm_num, mkv_decode_correct.1 0x8999 (by norm_num)⟩

/-- C8, counterexample: the raw word `0x1199` does not decode to
`409 * 2 ^ (-15)` within tolerance `1e-9`, and its top 5-bit field
sign-extends to 2, not -15 (the field is `0x1199 >>> 11 = 2`;
a word whose exponent field is `0x11` would be `0x8999`). -/
theorem mkv_0x1199_claim_false :
    ¬ |mkv 0x1199 - 409 * (2 : ℚ) ^ (-15 : ℤ)| ≤ 1 / 1000000000 ∧
    sext 5 (0x1199 / 2 ^ 11) ≠ (-15 : ℤ) := by
  have h : mkv 0x1199 = 1636 := by norm_num [mkv, toInt16, toInt32]
  constructor
  · rw [h]
    norm_num
    rw [abs_of_pos] <;> norm_num
  · decide

/-- C8, amended: decoding the raw word `0x1199` yields mantissa
`0x199 = 409` and exponent 2 after 5-bit sign extension of the top
field, so the decoded value equals `409 * 2 ^ 2 = 1636` exactly (and
in particular within tolerance `1e-9`). -/
theorem mkv_0x1199_decodes :
    mkv 0x1199 = 1636 ∧
    sext 11 (0x1199 % 2 ^ 11) = 409 ∧
    sext 5 (0x1199 / 2 ^ 11) = 2 ∧
    |mkv 0x1199 - 409 * (2 : ℚ) ^ (2 : ℤ)| ≤ 1 / 1000000000 := by
  have h : mkv 0x1199 = 1636 := by norm_num [mkv, toInt16, toInt32]
  refine ⟨h, by decide, by decide, ?_⟩
  rw [h]
  norm_num

/-- C3: after a full write and a full read, a response whose first
two bytes do not echo the request's op and reg makes `send_recv_cmd`
fail with a protocol-mismatch error carrying both the actual and the
expected pair, and a payload is delivered only when both echo bytes
match. -/
theorem send_recv_cmd_mismatch :
    ∀ (t : Transport) (b0 b1 b2 n : Nat),
      t.writeCount = 65 → t.readCount = 64 →
      ((t.response.getD 0 0 ≠ b0 ∨ t.response.getD 1 0 ≠ b1) →
        send_recv_cmd t b0 b1 b2 n =
          .error (.protocolMismatch (t.response.getD 0 0) (t.response.getD 1 0) b0 b1 b2)) ∧
      (∀ pl, send_recv_cmd t b0 b1 b2 n = .ok pl →
        t.response.getD 0 0 = b0 ∧ t.response.getD 1 0 = b1) := by
  intro t b0 b1 b2 n hw hr
  constructor
  · intro hmm
    unfold send_recv_cmd
    rw [if_neg (by omega), if_neg (by omega), if_pos hmm]
  · intro pl hok
    unfold send_recv_cmd at hok
    rw [if_neg (by omega), if_neg (by omega)] at hok
    split at hok
    case isTrue h => exact absurd hok (by simp)
    case isFalse h =>
      push_neg at h
      exact h

theorem send_recv_cmd_mismatch_witness :
    send_recv_cmd ⟨65, 64, []⟩ 0x03 0x8d 0x00 2 =
      .error (.protocolMismatch 0 0 0x03 0x8d 0x00) :=
  (send_recv_cmd_mismatch ⟨65, 64, []⟩ 0x03 0x8d 0x00 2 rfl rfl).1 (by decide)

/-- C4: a write reporting a byte count other than 65 or a read
reporting a byte count other than 64 makes `send_recv_cmd` fail with
the corresponding transport error, and in either case the result does
not depend on the response bytes, so neither the echo validation nor
the payload extraction is reached. -/
theorem send_recv_cmd_transport_gate :
    ∀ (t : Transport) (b0 b1 b2 n : Nat),
      (t.writeCount ≠ 65 →
        send_recv_cmd t b0 b1 b2 n = .error (.transportWrite t.writeCount 65)) ∧
      (t.writeCount = 65 → t.readCount ≠ 64 →
        send_recv_cmd t b0 b1 b2 n = .error (.transportRead t.readCount 64)) ∧
      ((t.writeCount ≠ 65 ∨ t.readCount ≠ 64) → ∀ r : List Nat,
        send_recv_cmd ⟨t.writeCount, t.readCount, r⟩ b0 b1 b2 n =
          send_recv_cmd t b0 b1 b2 n) := by
  intro t b0 b1 b2 n
  refine ⟨fun hw => by simp [send_recv_cmd, hw], fun hw hr => by simp [send_recv_cmd, hw, hr], ?_⟩
  intro hbad r
  rcases hbad with hw | hr
  · simp [send_recv_cmd, hw]
  · by_cases hw : t.writeCount = 65 <;> simp [send_recv_cmd, hw, hr]

theorem send_recv_cmd_transport_gate_witness :
    send_recv_cmd ⟨64, 64, []⟩ 0x03 0x8d 0x00 2 = .error (.transportWrite 64 65) :=
  (send_recv_cmd_transport_gate ⟨64, 64, []⟩ 0x03 0x8d 0x00 2).1 (by decide)

/-- C5: the outbound report is exactly 65 bytes, byte 0 is 0x00,
bytes 1, 2, 3 carry op, reg and arg, and bytes 4 through 64 are all
0x00 — the buffer is zeroed by the memset before the three stores,
so no other byte is ever sent. -/
theorem outbound_report_layout :
    ∀ b0 b1 b2 : Nat,
      (buildOutbound b0 b1 b2).length = 65 ∧
      (buildOutbound b0 b1 b2).getD 0 1 = 0 ∧
      (buildOutbound b0 b1 b2).getD 1 0 = b0 ∧
      (buildOutbound b0 b1 b2).getD 2 0 = b1 ∧
      (buildOutbound b0 b1 b2).getD 3 0 = b2 ∧
      ∀ i, 4 ≤ i → i < 65 → (buildOutbound b0 b1 b2).getD i 1 = 0 := by
  intro b0 b1 b2
  refine ⟨by simp [buildOutbound], rfl, rfl, rfl, rfl, ?_⟩
  intro i h4 h65
  obtain ⟨j, rfl⟩ : ∃ j, i = j + 4 := ⟨i - 4, by omega⟩
  show (List.replicate 61 0).getD j 1 = 0
  have hj : j < 61 := by omega
  rw [List.getD_eq_getElem?_getD, List.getElem?_replicate, if_pos hj]
  rfl

theorem outbound_report_layout_witness :
    (buildOutbound 0x03 0x8d 0x00).getD 64 1 = 0 :=
  (outbound_report_layout 0x03 0x8d 0x00).2.2.2.2.2 64 (by decide) (by decide)

/-- On a successful exchange against a 64-byte response, the payload
is the `min n 62` bytes starting at response offset 2. -/
theorem send_recv_cmd_ok_shape :
    ∀ (t : Transport) (b0 b1 b2 n : Nat) (pl : List Nat),
      t.response.length = 64 →
      send_recv_cmd t b0 b1 b2 n = .ok pl →
      pl.length = min n 62 ∧
      ∀ i, i < pl.length → pl.getD i 0 = t.response.getD (2 + i) 0 := by
  intro t b0 b1 b2 n pl hlen hok
  unfold send_recv_cmd at hok
  split at hok
  · exact absurd hok (by simp)
  · split at hok
    · exact absurd hok (by simp)
    · split at hok
      · exact absurd hok (by simp)
      · have hpl : pl = (t.response.drop 2).take (min n 62) := by
          injection hok with h
          exact h.symm
        subst hpl
        constructor
        · simp [List.length_take, List.length_drop, hlen]
        · intro i hi
          simp only [List.length_take, List.length_drop, hlen] at hi
          rw [List.getD_eq_getElem?_getD, List.getD_eq_getElem?_getD]
          rw [List.getElem?_take, List.getElem?_drop]
          simp only [if_pos (by omega : i < min n 62)]

/-- C6: on a successful exchange against a 64-byte response, the
payload handed back for a requested size `n` has exactly
`min n 62` bytes and its byte `i` is response byte `2 + i`, so the
two echo bytes at offsets 0 and 1 are never part of the payload. -/
theorem send_recv_cmd_payload :
    ∀ (t : Transport) (b0 b1 b2 n : Nat) (pl : List Nat),
      t.response.length = 64 →
      send_recv_cmd t b0 b1 b2 n = .ok pl →
      pl.length = min n 62 ∧
      ∀ i, i < pl.length → pl.getD i 0 = t.response.getD (2 + i) 0 :=
  send_recv_cmd_ok_shape

theorem send_recv_cmd_payload_witness :
    (([7, 7, 7, 7, 7] : List Nat).length = min 5 62) ∧
    ([7, 7, 7, 7, 7] : List Nat).getD 0 0 =
      (([0x03, 0x99] ++ List.replicate 62 7 : List Nat)).getD 2 0 := by
  have h := send_recv_cmd_payload ⟨65, 64, [0x03, 0x99] ++ List.replicate 62 7⟩
    0x03 0x99 0x00 5 [7, 7, 7, 7, 7] (by rfl) (by rfl)
  exact ⟨h.1, h.2 0 (by decide)⟩

/-- The transport used to exhibit the byte-order defect of
`read_reg16`: a well-formed exchange for register 0x8d whose two
payload bytes are 0x01 and 0x02 (little-endian wire value 0x0201). -/
def besampleTransport : Transport :=
  ⟨65, 64, [0x03, 0x8d, 0x01, 0x02] ++ List.replicate 60 0⟩

/-- C2, code divergence: with payload bytes 0x01, 0x02 the claim
requires the value `0x01 + 256 * 0x02 = 513` on every host, but the
`memcpy` of `read_reg16` yields 258 on a big-endian host (the source
marks this with `FIXME: big endian host`); the little-endian host
result is 513 as claimed. -/
theorem read_reg16_byte_order_bug :
    read_reg16 false besampleTransport 0x8d = .ok 258 ∧
    (258 : Nat) ≠ 0x01 + 2 ^ 8 * 0x02 ∧
    read_reg16 true besampleTransport 0x8d = .ok (0x01 + 2 ^ 8 * 0x02) := by
  refine ⟨by rfl, by decide, by rfl⟩

/-- C7: every rail-scoped read in the session's fixed command
sequence targets a rail index below 3 and the most recent rail-select
before it carries exactly that index — so a matching select precedes
it with no intervening select for a different index — and the
session's final protocol command is the rail-select with index 0. -/
theorem session_rail_discipline :
    (∀ i, (h : i < sessionTrace.length) →
      isRailRead (sessionTrace.get ⟨i, h⟩) = true →
      railOf i < 3 ∧ lastSelect (sessionTrace.take i) = some (railOf i)) ∧
    sessionTrace.getLast? = some ⟨0x02, 0x00, 0x00⟩ := by
  constructor
  · decide
  · rfl

theorem session_rail_discipline_witness :
    railOf 11 < 3 ∧ lastSelect (sessionTrace.take 11) = some (railOf 11) :=
  session_rail_discipline.1 11 (by decide) (by decide)

/-- C9: a device is accepted exactly when its vendor ID is 0x1b1c and
its product ID is in the ten-entry allow-list; the three example
identifier pairs behave as the spec demands; and a rejected device is
sent no protocol command at all. -/
theorem device_gating :
    (∀ vendor product : Nat,
      device_accepted vendor product = true ↔ (vendor = 0x1b1c ∧ product ∈ products)) ∧
    device_accepted 0x1b1c 0x1c0a = true ∧
    device_accepted 0x1b1c 0xffff = false ∧
    device_accepted 0x0000 0x1c0a = false ∧
    (∀ vendor product : Nat, device_accepted vendor product = false →
      deviceSession vendor product = []) := by
  refine ⟨?_, by decide, by decide, by decide, ?_⟩
  · intro vendor product
    simp [device_accepted, List.contains, List.elem_eq_mem]
  · intro vendor product h
    simp [deviceSession, h]

theorem device_gating_witness :
    deviceSession 0x0000 0x1c0a = [] :=
  device_gating.2.2.2.2 0x0000 0x1c0a (by decide)

/-- Writing a full 62-byte payload into a 63-byte buffer whose byte
62 is zero keeps the length and keeps the zero at byte 62: the copy
covers only indices 0..61. -/
theorem storePayload_terminator (buf pl : List Nat)
    (hb : buf.length = 63) (hz : buf.getD 62 1 = 0) (hp : pl.length = 62) :
    (storePayload buf pl).length = 63 ∧ (storePayload buf pl).getD 62 1 = 0 := by
  unfold storePayload
  constructor
  · simp [hp, hb]
  · rw [List.getD_eq_getElem?_getD, List.getElem?_append_right (by omega), hp,
      List.getElem?_drop]
    show (buf[62]?).getD 1 = 0
    rw [List.getD_eq_getElem?_getD] at hz
    exact hz

/-- C10: the identity, vendor and product strings are printed from a
63-byte buffer whose last byte `main` zeroes once before the first
exchange; each successful exchange against a 64-byte response writes
exactly 62 payload bytes over indices 0..61, so each of the three
buffer states `main` prints from has length 63, still carries the
zero at index 62, and hence holds a terminator at an index below 63
even when a payload contains no zero byte. -/
theorem name_buffer_terminated :
    ∀ (t1 t2 t3 : Transport) (init b1 b2 b3 : List Nat),
      init.length = 63 →
      t1.response.length = 64 → t2.response.length = 64 → t3.response.length = 64 →
      mainStringBuffers t1 t2 t3 init = some (b1, b2, b3) →
      (b1.length = 63 ∧ b1.getD 62 1 = 0 ∧ ∃ i, i < 63 ∧ b1.getD i 1 = 0) ∧
      (b2.length = 63 ∧ b2.getD 62 1 = 0 ∧ ∃ i, i < 63 ∧ b2.getD i 1 = 0) ∧
      (b3.length = 63 ∧ b3.getD 62 1 = 0 ∧ ∃ i, i < 63 ∧ b3.getD i 1 = 0) := by
  intro t1 t2 t3 init b1 b2 b3 hinit h1 h2 h3 hm
  unfold mainStringBuffers at hm
  rcases hok1 : send_recv_cmd t1 0xfe 0x03 0x00 62 with e1 | pl1
  · rw [hok1] at hm
    simp at hm
  · rw [hok1] at hm
    rcases hok2 : read_reg t2 0x99 62 with e2 | pl2
    · rw [hok2] at hm
      simp at hm
    · rw [hok2] at hm
      rcases hok3 : read_reg t3 0x9a 62 with e3 | pl3
      · rw [hok3] at hm
        simp at hm
      · rw [hok3] at hm
        simp only [Option.some.injEq, Prod.mk.injEq] at hm
        obtain ⟨hb1, hb2, hb3⟩ := hm
        subst hb1
        subst hb2
        subst hb3
        have hp1 : pl1.length = 62 := by
          rw [(send_recv_cmd_ok_shape t1 0xfe 0x03 0x00 62 pl1 h1 hok1).1]
          rfl
        have hp2 : pl2.length = 62 := by
          unfold read_reg at hok2
          rw [(send_recv_cmd_ok_shape t2 0x03 0x99 0x00 62 pl2 h2 hok2).1]
          rfl
        have hp3 : pl3.length = 62 := by
          unfold read_reg at hok3
          rw [(send_recv_cmd_ok_shape t3 0x03 0x9a 0x00 62 pl3 h3 hok3).1]
          rfl
        have hb0l : (init.set 62 0).length = 63 := by
          rw [List.length_set, hinit]
        have hb0z : (init.set 62 0).getD 62 1 = 0 := by
          rw [List.getD_eq_getElem?_getD, List.getElem?_set]
          simp [hinit]
        have hT1 := storePayload_terminator (init.set 62 0) pl1 hb0l hb0z hp1
        have hT2 := storePayload_terminator _ pl2 hT1.1 hT1.2 hp2
        have hT3 := storePayload_terminator _ pl3 hT2.1 hT2.2 hp3
        exact ⟨⟨hT1.1, hT1.2, 62, by omega, hT1.2⟩,
          ⟨hT2.1, hT2.2, 62, by omega, hT2.2⟩,
          ⟨hT3.1, hT3.2, 62, by omega, hT3.2⟩⟩

theorem name_buffer_terminated_witness :
    ((List.replicate 62 65 ++ [0] : List Nat).length = 63 ∧
      (List.replicate 62 65 ++ [0] : List Nat).getD 62 1 = 0 ∧
      ∃ i, i < 63 ∧ (List.replicate 62 65 ++ [0] : List Nat).getD i 1 = 0) ∧
    ((List.replicate 62 66 ++ [0] : List Nat).length = 63 ∧
      (List.replicate 62 66 ++ [0] : List Nat).getD 62 1 = 0 ∧
      ∃ i, i < 63 ∧ (List.replicate 62 66 ++ [0] : List Nat).getD i 1 = 0) ∧
    ((List.replicate 62 67 ++ [0] : List Nat).length = 63 ∧
      (List.replicate 62 67 ++ [0] : List Nat).getD 62 1 = 0 ∧
      ∃ i, i < 63 ∧ (List.replicate 62 67 ++ [0] : List Nat).getD i 1 = 0) :=
  name_buffer_terminated
    ⟨65, 64, [0xfe, 0x03] ++ List.replicate 62 65⟩
    ⟨65, 64, [0x03, 0x99] ++ List.replicate 62 66⟩
    ⟨65, 64, [0x03, 0x9a] ++ List.replicate 62 67⟩
    (List.replicate 63 9)
    (List.replicate 62 65 ++ [0]) (List.replicate 62 66 ++ [0]) (List.replicate 62 67 ++ [0])
    (by rfl) (by rfl) (by rfl) (by rfl) (by rfl)

end Corsairmi
